import Mathlib

/-
  Shallow embedding of the MediaWiki gadget "Recent Changes Patrol"
  (src/rcp.js, v2.2.1).  Pure fragments of the gadget are translated to
  Lean functions; the module-level mutable state (intervalId,
  lastCheckedTime, the portlet DOM list, the console log) is modelled as
  an explicit state record threaded through the operations, and the
  browser timer registry (setInterval / clearInterval) as a list of
  armed timers.
-/

namespace Rcp

/-! ## Preferences data model -/

/-- A fully-populated preferences object (every field present), as
produced by merging over `getConf().defaultPrefs`. -/
structure Prefs where
  origin : String
  quantity : Int
  frequency : Int
  newOnly : Bool
  «namespace» : String
  direction : String
deriving DecidableEq

/-- A plain JS object holding any subset of the six preference fields
(absent fields are `none`).  Used for the persisted `userjs-rcp` value,
for the dialog's accumulated `newPrefs` patch, and for the `newPrefs`
argument of `getPreferences`. -/
structure PrefsPatch where
  origin : Option String := none
  quantity : Option Int := none
  frequency : Option Int := none
  newOnly : Option Bool := none
  «namespace» : Option String := none
  direction : Option String := none
deriving DecidableEq

/-- Site configuration, `getConf()` in rcp.js (defaults possibly
overlaid by a per-wiki rcp-config.json, which is external to this
repository; claims are stated over an arbitrary `Conf`). -/
structure Conf where
  dangerousTags : List String
  defaultPrefs : Prefs
deriving DecidableEq

/-- The default configuration object literal of `getConf` (rcp.js lines
38-54). -/
def getConf : Conf :=
  { dangerousTags :=
      [ "mw-blank", "mw-changed-redirect-target", "mw-manual-revert",
        "mw-replace", "mw-undo" ],
    defaultPrefs :=
      { origin := "recentchanges", quantity := 10, frequency := 60,
        newOnly := false, «namespace» := "all", direction := "older" } }

/-- View a total preferences object as a patch with every field present
(the shape `Object.assign` sees for `getConf().defaultPrefs`). -/
def prefsToPatch (p : Prefs) : PrefsPatch :=
  { origin := some p.origin, quantity := some p.quantity,
    frequency := some p.frequency, newOnly := some p.newOnly,
    «namespace» := some p.«namespace», direction := some p.direction }

/-- `Object.assign(target, source)` restricted to the six preference
fields: a field of the result is the source's when the source has it,
otherwise the target's. -/
def objAssign (target source : PrefsPatch) : PrefsPatch :=
  { origin := source.origin.orElse fun _ => target.origin,
    quantity := source.quantity.orElse fun _ => target.quantity,
    frequency := source.frequency.orElse fun _ => target.frequency,
    newOnly := source.newOnly.orElse fun _ => target.newOnly,
    «namespace» := source.«namespace».orElse fun _ => target.«namespace»,
    direction := source.direction.orElse fun _ => target.direction }

/-! ## The persisted settings store and JSON.parse -/

/-- A JSON value as far as the gadget can observe it: `null`, a scalar,
or an object carrying some subset of the preference fields. -/
inductive JsonVal where
  | jnull
  | jbool (b : Bool)
  | jnum (n : Int)
  | jstr (s : String)
  | jobj (p : PrefsPatch)
deriving DecidableEq

/-- Content of the persisted `userjs-rcp` option as
`mw.user.options.get` returns it: absent (`null`), a string that is
well-formed JSON denoting `v`, or a string that is not valid JSON. -/
inductive StoredValue where
  | absent
  | valid (v : JsonVal)
  | malformed
deriving DecidableEq

/-- The exception `JSON.parse` raises on malformed input. -/
inductive ParseError where
  | parseFailure
deriving DecidableEq

/-- `JSON.parse(mw.user.options.get('userjs-rcp'))`: an absent option is
`null`, which `JSON.parse` coerces to the string "null" and parses to
the JSON value `null`; well-formed JSON parses to its value; anything
else raises a SyntaxError (modelled as `Except.error`). -/
def jsonParseStored : StoredValue → Except ParseError JsonVal
  | .absent => .ok .jnull
  | .valid v => .ok v
  | .malformed => .error .parseFailure

/-- The preference fields contributed by `JSON.parse(...) || {}` when
used as an `Object.assign` source: an object contributes its fields; a
falsy result is replaced by `{}`; a truthy primitive has no own
enumerable properties named after preference fields (a string only has
numeric index keys), so it contributes nothing either. -/
def jsonToPatch : JsonVal → PrefsPatch
  | .jobj p => p
  | _ => {}

/-- `getPreferences(newPrefs)` (rcp.js lines 66-81): parse the persisted
option (the parse exception, when raised, propagates out of the
function), then `Object.assign` defaults, persisted settings and
`newPrefs` into a fresh object, in that order. -/
def getPreferences (conf : Conf) (stored : StoredValue)
    (newPrefs : PrefsPatch) : Except ParseError PrefsPatch :=
  match jsonParseStored stored with
  | .error e => .error e
  | .ok v =>
    let userPrefs := jsonToPatch v
    let prefs : PrefsPatch := {}
    let prefs := objAssign prefs (prefsToPatch conf.defaultPrefs)
    let prefs := objAssign prefs userPrefs
    let prefs := objAssign prefs newPrefs
    .ok prefs

/-- Whether a merged preferences object has all six fields present. -/
def PrefsPatch.isTotal (p : PrefsPatch) : Bool :=
  p.origin.isSome && p.quantity.isSome && p.frequency.isSome &&
  p.newOnly.isSome && p.«namespace».isSome && p.direction.isSome

/-! ## Query construction -/

/-- The list identity / API parameter stem pair returned by
`getApiListType` (rcp.js lines 105-117). -/
structure ListType where
  list : String
  pfx : String
deriving DecidableEq

/-- `getApiListType(origin)`: the watchlist listing exactly for
`origin === 'watchlist'`, the recent-changes listing for everything
else. -/
def getApiListType (origin : String) : ListType :=
  if origin = "watchlist" then { list := "watchlist", pfx := "wl" }
  else { list := "recentchanges", pfx := "rc" }

/-- Site namespace metadata: `mw.config.get('wgContentNamespaces')` and
the values of `mw.config.get('wgNamespaceIds')` (which may repeat an id,
since several names can map to the same namespace). -/
structure NsConfig where
  contentNamespaces : List Int
  allNamespaceIds : List Int
deriving DecidableEq

/-- `[...new Set(l)]`: de-duplicate keeping the first occurrence of each
element, given the elements already seen. -/
def dedupFirst : List Int → List Int → List Int
  | _, [] => []
  | seen, x :: xs =>
    if x ∈ seen then dedupFirst seen xs
    else x :: dedupFirst (x :: seen) xs

/-- The API request object built by `getUnpatrolled` (rcp.js lines
125-158).  The dynamically-computed keys `listType.prefix + 'show'` etc.
are modelled by recording the stem in `pfx` and the values in fixed
fields; the optional namespace restriction is `none` when no
`...namespace` key is set. -/
structure ApiRequest where
  action : String
  list : String
  pfx : String
  showFilter : String
  typeFilter : List String
  propFields : List String
  dir : String
  limit : Int
  maxage : Int
  smaxage : Int
  nsRestriction : Option (List Int)
deriving DecidableEq

/-- `getUnpatrolled(prefs)` without its side effect: the request object
it builds.  (The `lastCheckedTime = Date.now()` side effect is modelled
in `populateList` below.) -/
def getUnpatrolled (prefs : Prefs) (nsCfg : NsConfig) : ApiRequest :=
  let listType := getApiListType prefs.origin
  let editType := if prefs.newOnly then ["new"] else ["edit", "new"]
  let nsRestriction : Option (List Int) :=
    if prefs.«namespace» = "content" then
      some nsCfg.contentNamespaces
    else if prefs.«namespace» = "noncontent" then
      let allNamespaces := dedupFirst [] nsCfg.allNamespaceIds
      some (allNamespaces.filter fun ns => !(nsCfg.contentNamespaces.contains ns))
    else none
  { action := "query", list := listType.list, pfx := listType.pfx,
    showFilter := "!patrolled", typeFilter := editType,
    propFields := ["title", "timestamp", "ids", "sizes", "tags"],
    dir := prefs.direction, limit := prefs.quantity,
    maxage := prefs.frequency, smaxage := prefs.frequency,
    nsRestriction := nsRestriction }

/-! ## Rendering a single change (createPortletEntry)

`createPortletEntry` reuses its `sizeDiff` variable: after the sign
branch it holds a display STRING (`'+' + n` or `'−' + n`, the
latter using the typographic minus sign U+2212), and only then is
`Math.abs(sizeDiff) >= 500` evaluated.  `Math.abs` applies JavaScript
ToNumber to its argument, so the embedding models a value that is either
a number or one of those strings, and ToNumber on strings. -/

/-- Read a non-empty list of decimal digit characters as a number. -/
def digitsToNat : List Char → Nat → Option Nat
  | [], acc => some acc
  | c :: cs, acc =>
    if c.isDigit then digitsToNat cs (acc * 10 + (c.toNat - 48))
    else none

/-- JavaScript ToNumber on a string, restricted to the grammar fragment
the gadget can produce (an optional ASCII sign followed by decimal
digits; the empty string is 0).  `none` stands for NaN.  The ECMAScript
StringNumericLiteral grammar admits only U+002B and U+002D as signs, so
a string beginning with the typographic minus U+2212 converts to NaN. -/
def jsStringToNumber (s : String) : Option Int :=
  match s.toList with
  | [] => some 0
  | '+' :: rest => (digitsToNat rest 0).map Int.ofNat
  | '-' :: rest => (digitsToNat rest 0).map fun n => -(n : Int)
  | cs => (digitsToNat cs 0).map Int.ofNat

/-- A JavaScript value that is either a number or a string (the two
shapes the `sizeDiff` variable takes). -/
inductive JsNum where
  | num (n : Int)
  | str (s : String)
deriving DecidableEq

/-- `Math.abs(v)` as a natural number; `none` stands for NaN (ToNumber
of an unparseable string). -/
def jsMathAbs : JsNum → Option Nat
  | .num n => some n.natAbs
  | .str s => (jsStringToNumber s).map Int.natAbs

/-- `v >= 500` in JavaScript: any comparison with NaN is false. -/
def jsAbsAtLeast (v : JsNum) (bound : Nat) : Bool :=
  match jsMathAbs v with
  | some m => bound ≤ m
  | none => false

/-- One change record as delivered by the API
(`data` in `createPortletEntry`). -/
structure ChangeRecord where
  title : String
  revid : Int
  timestamp : String
  oldlen : Int
  newlen : Int
  tags : List String
  type : String
deriving DecidableEq

/-- The CSS classes `createPortletEntry` adds to the portlet entry
(rcp.js lines 178-223), in push order. -/
def entryClasses (conf : Conf) (data : ChangeRecord) : List String :=
  let classesToAdd := ["userjs-rcp-item"]
  let sizeDiff0 : Int := data.newlen - data.oldlen
  let branch :=
    if sizeDiff0 > 0 then
      (classesToAdd ++ ["userjs-rcp-diff-positive"],
        JsNum.str ("+" ++ toString sizeDiff0))
    else if sizeDiff0 < 0 then
      (classesToAdd ++ ["userjs-rcp-diff-negative"],
        JsNum.str ("−" ++ toString sizeDiff0.natAbs))
    else (classesToAdd, JsNum.num sizeDiff0)
  let classesToAdd := branch.1
  let sizeDiff := branch.2
  let classesToAdd :=
    if jsAbsAtLeast sizeDiff 500 then
      classesToAdd ++ ["userjs-rcp-diff-large"]
    else classesToAdd
  let classesToAdd :=
    if data.type = "new" then classesToAdd ++ ["userjs-rcp-item-new"]
    else classesToAdd
  let classesToAdd :=
    if (conf.dangerousTags.filter fun tag => data.tags.contains tag).length ≠ 0 then
      classesToAdd ++ ["userjs-rcp-item-highlight"]
    else classesToAdd
  classesToAdd

/-! ## Populating the portlet list -/

/-- A rendered portlet entry: either the single "no unpatrolled
changes" placeholder or a data entry for one change. -/
inductive Entry where
  | placeholder (msg : String)
  | item (title : String) (classes : List String)
deriving DecidableEq

/-- Whether an entry is the empty-list placeholder. -/
def Entry.isPlaceholder : Entry → Bool
  | .placeholder _ => true
  | .item _ _ => false

/-- The entries inserted by `populateList`'s done-handler for a batch
`changeList` (rcp.js lines 264-282): one placeholder when the batch is
empty, otherwise one data entry per change via `createPortletEntry`. -/
def renderChangeList (conf : Conf) (changeList : List ChangeRecord) :
    List Entry :=
  if changeList.length = 0 then
    [Entry.placeholder "userjs-rcp-portlet-empty"]
  else
    changeList.map fun change => Entry.item change.title (entryClasses conf change)

/-! ## Module state and the polling loop -/

/-- Outcome of `api.get(request)`: the done-handler's record batch or
the fail-handler's error string. -/
inductive FetchResult where
  | ok (records : List ChangeRecord)
  | err (msg : String)
deriving DecidableEq

/-- The gadget's mutable module state plus the browser facilities it
drives: `timers` is the browser's registry of armed repeating timers as
(handle, interval-in-ms) pairs with `nextTimerId` the next fresh handle;
`intervalId` and `lastCheckedTime` are the module-level variables of the
same names; `entries` is the content of the `#p-unpatrolled` list;
`log` the console; `pollCount` counts `populateList` invocations and
`fetchCount` the queries actually issued (instrumentation for the
temporal claims). -/
structure RcpState where
  timers : List (Nat × Int)
  nextTimerId : Nat
  intervalId : Option Nat
  lastCheckedTime : Int
  entries : List Entry
  log : List String
  pollCount : Nat
  fetchCount : Nat
deriving DecidableEq

/-- `clearInterval(id)`: remove the timer with that handle;
`clearInterval(undefined)` is a no-op. -/
def clearIntervalOp (timers : List (Nat × Int)) (id : Option Nat) :
    List (Nat × Int) :=
  match id with
  | none => timers
  | some i => timers.filter fun t => t.1 ≠ i

/-- `setInterval(populateList, ms)`: arm a fresh repeating timer and
return its handle. -/
def setIntervalOp (st : RcpState) (ms : Int) : RcpState × Nat :=
  ({ st with timers := st.timers ++ [(st.nextTimerId, ms)],
             nextTimerId := st.nextTimerId + 1 },
   st.nextTimerId)

/-- `populateList(initial)` (rcp.js lines 247-286) for one cycle whose
fetch resolves as `outcome` at instant `now`: bail out while the
document is hidden; otherwise issue the query (`getUnpatrolled` records
`lastCheckedTime = Date.now()` at issue time); the done-handler empties
the list on a non-initial refresh and inserts the new batch, while the
fail-handler only writes to the console. -/
def populateList (conf : Conf) (st : RcpState) (hidden initial : Bool)
    (outcome : FetchResult) (now : Int) : RcpState :=
  let st := { st with pollCount := st.pollCount + 1 }
  if hidden then st
  else
    let st := { st with lastCheckedTime := now,
                        fetchCount := st.fetchCount + 1 }
    match outcome with
    | .ok records =>
      { st with entries :=
          (if initial then st.entries else []) ++ renderChangeList conf records }
    | .err msg =>
      { st with log := st.log ++ ["Error from Gadget-rcp.js: " ++ msg] }

/-- `refreshList()` (rcp.js lines 291-295): cancel the current timer,
poll once immediately, and arm a new repeating timer at the
currently-resolved `getPreferences().frequency * 1000` milliseconds
(`freq` is that resolved frequency). -/
def refreshList (conf : Conf) (st : RcpState) (hidden : Bool)
    (outcome : FetchResult) (now : Int) (freq : Int) : RcpState :=
  let st := { st with timers := clearIntervalOp st.timers st.intervalId }
  let st := populateList conf st hidden false outcome now
  let armed := setIntervalOp st (freq * 1000)
  { armed.1 with intervalId := some armed.2 }

/-- The `visibilitychange` listener (rcp.js lines 499-505): nothing
while hidden; on becoming visible, `refreshList()` exactly when
`Date.now() - lastCheckedTime > getPreferences().frequency * 1000`. -/
def visibilityChangeHandler (conf : Conf) (st : RcpState) (hidden : Bool)
    (outcome : FetchResult) (now : Int) (freq : Int) : RcpState :=
  if hidden then st
  else if now - st.lastCheckedTime > freq * 1000 then
    refreshList conf st false outcome now freq
  else st

/-- Scheduler invariant: every armed timer is the one tracked by
`intervalId` (in particular there is at most one armed timer whenever
handles are not reused). -/
def timerInv (st : RcpState) : Prop :=
  ∀ t ∈ st.timers, st.intervalId = some t.1

/-! ## Options dialog -/

/-- The `newOnly` checkbox's change handler (rcp.js lines 414-416): the
patch records `newOnly = true` when the box becomes checked and is left
untouched when it becomes unchecked. -/
def newOnlyChangeHandler (newPrefs : PrefsPatch) (selected : Bool) :
    PrefsPatch :=
  if selected then { newPrefs with newOnly := some true } else newPrefs

/-- The dialog's initial `newPrefs` patch: `{}`. -/
def initialNewPrefs : PrefsPatch := {}

/-- The object persisted by the dialog's save action (rcp.js line 467):
the full merged preferences `getPreferences(dialog.newPrefs)`. -/
def saveAction (conf : Conf) (stored : StoredValue)
    (newPrefs : PrefsPatch) : Except ParseError PrefsPatch :=
  getPreferences conf stored newPrefs

/-- The object persisted by the dialog's reset action (rcp.js line
469): `{}`. -/
def resetAction : PrefsPatch := {}

/-! ## Helper lemmas -/

theorem orElse_orElse_getD {α : Type} (a b : Option α) (d : α) :
    (a.orElse fun _ => b.orElse fun _ => some d) = some (a.getD (b.getD d)) := by
  cases a <;> cases b <;> rfl

theorem orElse_chain_isSome {α : Type} (a b : Option α) (d : α) :
    (a.orElse fun _ => b.orElse fun _ => some d).isSome = true := by
  cases a <;> cases b <;> rfl

/-- The merge `getPreferences` builds always has all six fields. -/
theorem merged_isTotal (conf : Conf) (u o : PrefsPatch) :
    (objAssign (objAssign (objAssign {} (prefsToPatch conf.defaultPrefs)) u) o).isTotal
      = true := by
  simp only [PrefsPatch.isTotal, Bool.and_eq_true]
  exact ⟨⟨⟨⟨⟨orElse_chain_isSome o.origin u.origin _,
    orElse_chain_isSome o.quantity u.quantity _⟩,
    orElse_chain_isSome o.frequency u.frequency _⟩,
    orElse_chain_isSome o.newOnly u.newOnly _⟩,
    orElse_chain_isSome o.«namespace» u.«namespace» _⟩,
    orElse_chain_isSome o.direction u.direction _⟩

theorem mem_dedupFirst (seen l : List Int) (x : Int) :
    x ∈ dedupFirst seen l ↔ x ∈ l ∧ x ∉ seen := by
  induction l generalizing seen with
  | nil => simp [dedupFirst]
  | cons y ys ih =>
    by_cases hy : y ∈ seen
    · rw [dedupFirst, if_pos hy, ih]
      constructor
      · rintro ⟨hx, hns⟩
        exact ⟨List.mem_cons_of_mem _ hx, hns⟩
      · rintro ⟨hx, hns⟩
        rcases List.mem_cons.mp hx with rfl | hx
        · exact absurd hy hns
        · exact ⟨hx, hns⟩
    · rw [dedupFirst, if_neg hy]
      constructor
      · intro hx
        rcases List.mem_cons.mp hx with rfl | hx
        · exact ⟨List.mem_cons_self _ _, hy⟩
        · have h := (ih (y :: seen)).mp hx
          refine ⟨List.mem_cons_of_mem _ h.1, fun hc => h.2 (List.mem_cons_of_mem _ hc)⟩
      · rintro ⟨hx, hns⟩
        by_cases hxy : x = y
        · subst hxy
          exact List.mem_cons_self _ _
        · rcases List.mem_cons.mp hx with rfl | hx
          · exact absurd rfl hxy
          · refine List.mem_cons_of_mem _ ((ih (y :: seen)).mpr ⟨hx, ?_⟩)
            intro hc
            rcases List.mem_cons.mp hc with rfl | hc
            · exact hxy rfl
            · exact hns hc

theorem nodup_dedupFirst (seen l : List Int) : (dedupFirst seen l).Nodup := by
  induction l generalizing seen with
  | nil => exact List.nodup_nil
  | cons y ys ih =>
    rw [dedupFirst]
    by_cases hy : y ∈ seen
    · rw [if_pos hy]
      exact ih seen
    · rw [if_neg hy, List.nodup_cons]
      refine ⟨fun hmem => ?_, ih (y :: seen)⟩
      exact ((mem_dedupFirst (y :: seen) ys y).mp hmem).2 (List.mem_cons_self y seen)

/-- Projections of one `populateList` step that do not depend on the
fetch outcome or visibility. -/
theorem populateList_proj (conf : Conf) (st : RcpState) (hidden initial : Bool)
    (outcome : FetchResult) (now : Int) :
    (populateList conf st hidden initial outcome now).timers = st.timers
    ∧ (populateList conf st hidden initial outcome now).nextTimerId = st.nextTimerId
    ∧ (populateList conf st hidden initial outcome now).intervalId = st.intervalId
    ∧ (populateList conf st hidden initial outcome now).pollCount = st.pollCount + 1 := by
  cases hidden <;> cases outcome <;> exact ⟨rfl, rfl, rfl, rfl⟩

/-- Projections of one `refreshList` step. -/
theorem refreshList_proj (conf : Conf) (st : RcpState) (hidden : Bool)
    (outcome : FetchResult) (now : Int) (freq : Int) :
    (refreshList conf st hidden outcome now freq).timers =
        clearIntervalOp st.timers st.intervalId ++ [(st.nextTimerId, freq * 1000)]
    ∧ (refreshList conf st hidden outcome now freq).intervalId = some st.nextTimerId
    ∧ (refreshList conf st hidden outcome now freq).nextTimerId = st.nextTimerId + 1
    ∧ (refreshList conf st hidden outcome now freq).pollCount = st.pollCount + 1 := by
  cases hidden <;> cases outcome <;> exact ⟨rfl, rfl, rfl, rfl⟩

/-- A visible `refreshList` issues its query immediately. -/
theorem refreshList_fetchCount (conf : Conf) (st : RcpState)
    (outcome : FetchResult) (now : Int) (freq : Int) :
    (refreshList conf st false outcome now freq).fetchCount = st.fetchCount + 1 := by
  cases outcome <;> rfl

/-- Under the scheduler invariant, cancelling the tracked timer leaves
no armed timer. -/
theorem clear_tracked_eq_nil (st : RcpState) (h : timerInv st) :
    clearIntervalOp st.timers st.intervalId = [] := by
  cases hid : st.intervalId with
  | none =>
    cases ht : st.timers with
    | nil => rw [clearIntervalOp]
    | cons t ts =>
      have := h t (ht ▸ List.mem_cons_self t ts)
      rw [hid] at this
      exact absurd this (by simp)
  | some i =>
    rw [clearIntervalOp, List.filter_eq_nil_iff]
    intro t htmem
    have := h t htmem
    rw [hid] at this
    have h1 : t.1 = i := by
      injection this with h2
      exact h2.symm
    simp [h1]

/-! ## Claims -/

/-- C1: the spec says the size-delta classification adds "positive" for
a strictly positive delta, "negative" for a strictly negative one, and
"large" whenever |delta| ≥ 500 regardless of sign, so oldSize=700,
newSize=100 should be both "negative" and "large".  The code computes
`Math.abs` of the already-formatted display string, whose U+2212 minus
sign makes ToNumber yield NaN, so a negative delta never receives the
"large" class: the record with delta −600 gets only the "negative"
class, while the positive counterpart (delta +600, formatted with an
ASCII '+', which ToNumber does parse) gets "positive" and "large". -/
theorem claim_C1_eval :
    entryClasses getConf
      { title := "Example", revid := 1, timestamp := "", oldlen := 700,
        newlen := 100, tags := [], type := "edit" } =
      ["userjs-rcp-item", "userjs-rcp-diff-negative"]
    ∧ entryClasses getConf
      { title := "Example", revid := 1, timestamp := "", oldlen := 100,
        newlen := 700, tags := [], type := "edit" } =
      ["userjs-rcp-item", "userjs-rcp-diff-positive", "userjs-rcp-diff-large"]
    ∧ "userjs-rcp-diff-large" ∉ entryClasses getConf
      { title := "Example", revid := 1, timestamp := "", oldlen := 700,
        newlen := 100, tags := [], type := "edit" } := by
  refine ⟨rfl, rfl, ?_⟩
  intro hmem
  rw [show entryClasses getConf
      { title := "Example", revid := 1, timestamp := "", oldlen := 700,
        newlen := 100, tags := [], type := "edit" } =
      ["userjs-rcp-item", "userjs-rcp-diff-negative"] from rfl] at hmem
  rcases List.mem_cons.mp hmem with h | h
  · exact absurd h (by decide)
  · rcases List.mem_cons.mp h with h2 | h2
    · exact absurd h2 (by decide)
    · exact List.not_mem_nil _ h2

/-- C5: a poll cycle whose fetch returns an empty batch renders exactly
one placeholder entry ("no unpatrolled changes") and zero data entries:
on a visible, non-initial cycle the resulting list is exactly the single
placeholder. -/
theorem claim_C5_empty_batch (conf : Conf) (st : RcpState) (now : Int) :
    (populateList conf st false false (.ok []) now).entries =
        [Entry.placeholder "userjs-rcp-portlet-empty"]
    ∧ (renderChangeList conf []).countP Entry.isPlaceholder = 1
    ∧ (renderChangeList conf []).countP (fun e => !e.isPlaceholder) = 0 :=
  ⟨rfl, rfl, rfl⟩

/-- C6: `getApiListType` selects the watchlist listing (list
"watchlist", parameter stem "wl") exactly when the origin is the string
"watchlist"; every other origin, recognized or not, yields the
recent-changes listing (list "recentchanges", stem "rc"). -/
theorem claim_C6_origin_listing (origin : String) :
    (getApiListType origin = { list := "watchlist", pfx := "wl" } ↔
      origin = "watchlist")
    ∧ (getApiListType origin = { list := "recentchanges", pfx := "rc" } ↔
      origin ≠ "watchlist") := by
  by_cases h : origin = "watchlist"
  · subst h
    exact ⟨iff_of_true rfl rfl, iff_of_false (by decide) (by decide)⟩
  · constructor
    · rw [getApiListType, if_neg h]
      exact iff_of_false (by decide) h
    · rw [getApiListType, if_neg h]
      exact iff_of_true rfl h

/-- C9: a visible poll cycle whose fetch fails only appends one line to
the console log; the rendered entries of the previous cycle, the armed
timers and the tracked interval handle are all left unchanged, so the
next scheduled cycle fires normally. -/
theorem claim_C9_failed_fetch (conf : Conf) (st : RcpState) (initial : Bool)
    (msg : String) (now : Int) :
    (populateList conf st false initial (.err msg) now).entries = st.entries
    ∧ (populateList conf st false initial (.err msg) now).timers = st.timers
    ∧ (populateList conf st false initial (.err msg) now).intervalId = st.intervalId
    ∧ (populateList conf st false initial (.err msg) now).log =
        st.log ++ ["Error from Gadget-rcp.js: " ++ msg] :=
  ⟨rfl, rfl, rfl, rfl⟩

/-- C3: for every subset of fields in persisted storage and every
override patch, `getPreferences` returns an object whose six fields are
all present, each resolved as override-over-persisted-over-default. -/
theorem claim_C3_layering (conf : Conf) (u o : PrefsPatch) :
    ∃ m, getPreferences conf (.valid (.jobj u)) o = .ok m
      ∧ m.isTotal = true
      ∧ m.origin = some (o.origin.getD (u.origin.getD conf.defaultPrefs.origin))
      ∧ m.quantity = some (o.quantity.getD (u.quantity.getD conf.defaultPrefs.quantity))
      ∧ m.frequency = some (o.frequency.getD (u.frequency.getD conf.defaultPrefs.frequency))
      ∧ m.newOnly = some (o.newOnly.getD (u.newOnly.getD conf.defaultPrefs.newOnly))
      ∧ m.«namespace» =
          some (o.«namespace».getD (u.«namespace».getD conf.defaultPrefs.«namespace»))
      ∧ m.direction = some (o.direction.getD (u.direction.getD conf.defaultPrefs.direction)) := by
  refine ⟨_, rfl, merged_isTotal conf u o, ?_, ?_, ?_, ?_, ?_, ?_⟩
  · exact orElse_orElse_getD o.origin u.origin conf.defaultPrefs.origin
  · exact orElse_orElse_getD o.quantity u.quantity conf.defaultPrefs.quantity
  · exact orElse_orElse_getD o.frequency u.frequency conf.defaultPrefs.frequency
  · exact orElse_orElse_getD o.newOnly u.newOnly conf.defaultPrefs.newOnly
  · exact orElse_orElse_getD o.«namespace» u.«namespace» conf.defaultPrefs.«namespace»
  · exact orElse_orElse_getD o.direction u.direction conf.defaultPrefs.direction

/-- C2 counterexample: the claim says preference resolution never
throws for any content of the persisted store, but when the persisted
`userjs-rcp` value is present and not valid JSON, the `JSON.parse` call
in `getPreferences` has no try/catch around it, so the exception
propagates out of resolution. -/
theorem claim_C2_counterexample :
    getPreferences getConf .malformed {} = .error .parseFailure := rfl

/-- C2 (amended): preference resolution does not throw when the
persisted value is absent or is any well-formed JSON value (non-object
or falsy results contribute no fields), and then yields a total
defaults-based preferences object; an absent value resolves exactly
like a persisted empty object.  A persisted value that is not valid
JSON, however, makes resolution throw. -/
theorem claim_C2_amended (conf : Conf) (stored : StoredValue) (o : PrefsPatch)
    (h : stored ≠ .malformed) :
    (∃ m, getPreferences conf stored o = .ok m ∧ m.isTotal = true)
    ∧ getPreferences conf .absent o = getPreferences conf (.valid (.jobj {})) o := by
  refine ⟨?_, rfl⟩
  cases stored with
  | malformed => exact absurd rfl h
  | absent => exact ⟨_, rfl, merged_isTotal conf {} o⟩
  | valid v =>
    cases v with
    | jnull => exact ⟨_, rfl, merged_isTotal conf {} o⟩
    | jbool b => exact ⟨_, rfl, merged_isTotal conf {} o⟩
    | jnum n => exact ⟨_, rfl, merged_isTotal conf {} o⟩
    | jstr s => exact ⟨_, rfl, merged_isTotal conf {} o⟩
    | jobj u => exact ⟨_, rfl, merged_isTotal conf u o⟩

/-- C2 witness: resolution with an absent persisted value at the
default configuration succeeds with a total object. -/
theorem claim_C2_witness :
    (∃ m, getPreferences getConf .absent {} = .ok m ∧ m.isTotal = true)
    ∧ getPreferences getConf .absent {} =
        getPreferences getConf (.valid (.jobj {})) {} :=
  claim_C2_amended getConf .absent {} (by decide)

/-- C4: with `prefs.namespace = "noncontent"`, the namespace
restriction placed on the built request is present, contains no
duplicate entries, and as a set equals the all-namespace collection
minus the content namespaces, for every all-namespace list (duplicates
allowed) and every content-namespace list. -/
theorem claim_C4_noncontent (prefs : Prefs) (nsCfg : NsConfig)
    (h : prefs.«namespace» = "noncontent") :
    (getUnpatrolled prefs nsCfg).nsRestriction.isSome = true
    ∧ ((getUnpatrolled prefs nsCfg).nsRestriction.getD []).Nodup
    ∧ ((getUnpatrolled prefs nsCfg).nsRestriction.getD []).toFinset =
        nsCfg.allNamespaceIds.toFinset \ nsCfg.contentNamespaces.toFinset := by
  have hne : prefs.«namespace» ≠ "content" := by
    rw [h]
    decide
  have hr : (getUnpatrolled prefs nsCfg).nsRestriction =
      some ((dedupFirst [] nsCfg.allNamespaceIds).filter
        fun ns => !(nsCfg.contentNamespaces.contains ns)) := by
    show (if prefs.«namespace» = "content" then some nsCfg.contentNamespaces
      else if prefs.«namespace» = "noncontent" then
        some ((dedupFirst [] nsCfg.allNamespaceIds).filter
          fun ns => !(nsCfg.contentNamespaces.contains ns))
      else none) = _
    rw [if_neg hne, if_pos h]
  rw [hr]
  refine ⟨rfl, ?_, ?_⟩
  · rw [Option.getD_some]
    exact (nodup_dedupFirst [] nsCfg.allNamespaceIds).filter _
  · rw [Option.getD_some]
    ext x
    simp [List.mem_filter, mem_dedupFirst]

/-- C4 witness: a concrete build with duplicate-carrying all-namespace
list [0, 0, 1, 2, 3, 1] and content namespaces [0, 2]. -/
theorem claim_C4_witness :
    (getUnpatrolled
        { origin := "recentchanges", quantity := 10, frequency := 60,
          newOnly := false, «namespace» := "noncontent", direction := "older" }
        { contentNamespaces := [0, 2],
          allNamespaceIds := [0, 0, 1, 2, 3, 1] }).nsRestriction.isSome = true
    ∧ ((getUnpatrolled
        { origin := "recentchanges", quantity := 10, frequency := 60,
          newOnly := false, «namespace» := "noncontent", direction := "older" }
        { contentNamespaces := [0, 2],
          allNamespaceIds := [0, 0, 1, 2, 3, 1] }).nsRestriction.getD []).Nodup
    ∧ ((getUnpatrolled
        { origin := "recentchanges", quantity := 10, frequency := 60,
          newOnly := false, «namespace» := "noncontent", direction := "older" }
        { contentNamespaces := [0, 2],
          allNamespaceIds := [0, 0, 1, 2, 3, 1] }).nsRestriction.getD []).toFinset =
        ([0, 0, 1, 2, 3, 1] : List Int).toFinset \ ([0, 2] : List Int).toFinset :=
  claim_C4_noncontent
    { origin := "recentchanges", quantity := 10, frequency := 60,
      newOnly := false, «namespace» := "noncontent", direction := "older" }
    { contentNamespaces := [0, 2], allNamespaceIds := [0, 0, 1, 2, 3, 1] }
    rfl

/-- C7: under the invariant that every armed timer is the tracked one,
`refreshList` (the gadget's start/restart) first cancels the existing
timer, performs one immediate poll, and arms exactly one new repeating
timer at the currently resolved frequency; the invariant is preserved,
and a second start in succession again leaves exactly one armed
timer. -/
theorem claim_C7_single_timer (conf : Conf) (st : RcpState) (hidden : Bool)
    (outcome : FetchResult) (now : Int) (freq : Int) (h : timerInv st) :
    (refreshList conf st hidden outcome now freq).timers =
        [(st.nextTimerId, freq * 1000)]
    ∧ (refreshList conf st hidden outcome now freq).intervalId = some st.nextTimerId
    ∧ (refreshList conf st hidden outcome now freq).pollCount = st.pollCount + 1
    ∧ timerInv (refreshList conf st hidden outcome now freq)
    ∧ (refreshList conf (refreshList conf st hidden outcome now freq) hidden
        outcome now freq).timers.length = 1 := by
  obtain ⟨ht, hi, hn, hp⟩ := refreshList_proj conf st hidden outcome now freq
  have hclear := clear_tracked_eq_nil st h
  have htimers : (refreshList conf st hidden outcome now freq).timers =
      [(st.nextTimerId, freq * 1000)] := by
    rw [ht, hclear]
    rfl
  have hinv : timerInv (refreshList conf st hidden outcome now freq) := by
    intro t htmem
    rw [htimers] at htmem
    rcases List.mem_singleton.mp htmem with rfl
    rw [hi]
  refine ⟨htimers, hi, hp, hinv, ?_⟩
  obtain ⟨ht2, _, _, _⟩ :=
    refreshList_proj conf (refreshList conf st hidden outcome now freq) hidden
      outcome now freq
  rw [ht2, clear_tracked_eq_nil _ hinv]
  rfl

/-- C7 witness: a state with one armed tracked timer, restarted with
frequency 60. -/
theorem claim_C7_witness :
    (refreshList getConf
        { timers := [(5, 60000)], nextTimerId := 6, intervalId := some 5,
          lastCheckedTime := 0, entries := [], log := [], pollCount := 3,
          fetchCount := 2 } false (.ok []) 1000 60).timers = [(6, 60 * 1000)]
    ∧ (refreshList getConf
        { timers := [(5, 60000)], nextTimerId := 6, intervalId := some 5,
          lastCheckedTime := 0, entries := [], log := [], pollCount := 3,
          fetchCount := 2 } false (.ok []) 1000 60).intervalId = some 6
    ∧ (refreshList getConf
        { timers := [(5, 60000)], nextTimerId := 6, intervalId := some 5,
          lastCheckedTime := 0, entries := [], log := [], pollCount := 3,
          fetchCount := 2 } false (.ok []) 1000 60).pollCount = 3 + 1
    ∧ timerInv (refreshList getConf
        { timers := [(5, 60000)], nextTimerId := 6, intervalId := some 5,
          lastCheckedTime := 0, entries := [], log := [], pollCount := 3,
          fetchCount := 2 } false (.ok []) 1000 60)
    ∧ (refreshList getConf (refreshList getConf
        { timers := [(5, 60000)], nextTimerId := 6, intervalId := some 5,
          lastCheckedTime := 0, entries := [], log := [], pollCount := 3,
          fetchCount := 2 } false (.ok []) 1000 60) false
        (.ok []) 1000 60).timers.length = 1 :=
  claim_C7_single_timer getConf
    { timers := [(5, 60000)], nextTimerId := 6, intervalId := some 5,
      lastCheckedTime := 0, entries := [], log := [], pollCount := 3,
      fetchCount := 2 } false (.ok []) 1000 60
    (fun t ht => by
      rcases List.mem_singleton.mp ht with rfl
      rfl)

/-- C8: on a hidden-to-visible transition, the listener restarts
(polls immediately and rearms) exactly when the elapsed time since the
last issued query strictly exceeds the resolved frequency in seconds;
otherwise it leaves the state, including the armed timer, untouched. -/
theorem claim_C8_visibility (conf : Conf) (st : RcpState)
    (outcome : FetchResult) (now : Int) (freq : Int) :
    (now - st.lastCheckedTime > freq * 1000 →
      visibilityChangeHandler conf st false outcome now freq =
          refreshList conf st false outcome now freq
      ∧ (visibilityChangeHandler conf st false outcome now freq).fetchCount =
          st.fetchCount + 1)
    ∧ (¬ now - st.lastCheckedTime > freq * 1000 →
        visibilityChangeHandler conf st false outcome now freq = st) := by
  constructor
  · intro hgt
    have he : visibilityChangeHandler conf st false outcome now freq =
        refreshList conf st false outcome now freq := by
      show (if now - st.lastCheckedTime > freq * 1000 then
          refreshList conf st false outcome now freq else st) = _
      rw [if_pos hgt]
    refine ⟨he, ?_⟩
    rw [he]
    exact refreshList_fetchCount conf st outcome now freq
  · intro hle
    show (if now - st.lastCheckedTime > freq * 1000 then
        refreshList conf st false outcome now freq else st) = st
    rw [if_neg hle]

/-- C8 witness: with lastCheckedAt 0, frequency 60 s and now at 100000
ms the elapsed time exceeds the interval, so the handler restarts and
issues a query; with now at 1000 ms it does not, and the state is
untouched. -/
theorem claim_C8_witness :
    (visibilityChangeHandler getConf
        { timers := [(5, 60000)], nextTimerId := 6, intervalId := some 5,
          lastCheckedTime := 0, entries := [], log := [], pollCount := 3,
          fetchCount := 2 } false (.ok []) 100000 60).fetchCount = 2 + 1
    ∧ visibilityChangeHandler getConf
        { timers := [(5, 60000)], nextTimerId := 6, intervalId := some 5,
          lastCheckedTime := 0, entries := [], log := [], pollCount := 3,
          fetchCount := 2 } false (.ok []) 1000 60 =
      { timers := [(5, 60000)], nextTimerId := 6, intervalId := some 5,
        lastCheckedTime := 0, entries := [], log := [], pollCount := 3,
        fetchCount := 2 } :=
  ⟨((claim_C8_visibility getConf
      { timers := [(5, 60000)], nextTimerId := 6, intervalId := some 5,
        lastCheckedTime := 0, entries := [], log := [], pollCount := 3,
        fetchCount := 2 } (.ok []) 100000 60).1 (by decide)).2,
   (claim_C8_visibility getConf
      { timers := [(5, 60000)], nextTimerId := 6, intervalId := some 5,
        lastCheckedTime := 0, entries := [], log := [], pollCount := 3,
        fetchCount := 2 } (.ok []) 1000 60).2 (by decide)⟩

/-- Unchecking never writes `newOnly` into the dialog patch, so a patch
built from any sequence of checkbox events never holds `newOnly =
false`. -/
theorem newOnly_never_false (evs : List Bool) (p : PrefsPatch)
    (h : p.newOnly ≠ some false) :
    (evs.foldl newOnlyChangeHandler p).newOnly ≠ some false := by
  induction evs generalizing p with
  | nil => exact h
  | cons e es ih =>
    rw [List.foldl_cons]
    apply ih
    cases e
    · exact h
    · simp [newOnlyChangeHandler]

/-- C10: the dialog's accumulated patch can never contain `newOnly =
false`; hence once `newOnly = true` is persisted, any later save (with
the box checked or not) still persists `newOnly = true`, and only the
reset action (persisting `{}`) restores the default. -/
theorem claim_C10_newOnly_sticky (events : List Bool) (conf : Conf)
    (u : PrefsPatch) :
    (events.foldl newOnlyChangeHandler initialNewPrefs).newOnly ≠ some false
    ∧ (u.newOnly = some true →
        ∃ m, saveAction conf (.valid (.jobj u))
            (events.foldl newOnlyChangeHandler initialNewPrefs) = .ok m
          ∧ m.newOnly = some true)
    ∧ (∃ m, getPreferences conf (.valid (.jobj resetAction)) {} = .ok m
        ∧ m.newOnly = some conf.defaultPrefs.newOnly) := by
  have hpn : (events.foldl newOnlyChangeHandler initialNewPrefs).newOnly ≠ some false :=
    newOnly_never_false events initialNewPrefs (by decide)
  refine ⟨hpn, ?_, ⟨_, rfl, rfl⟩⟩
  intro hu
  refine ⟨_, rfl, ?_⟩
  show ((events.foldl newOnlyChangeHandler initialNewPrefs).newOnly.orElse
      fun _ => u.newOnly.orElse fun _ => some conf.defaultPrefs.newOnly) = some true
  rw [hu]
  cases hpatch : (events.foldl newOnlyChangeHandler initialNewPrefs).newOnly with
  | none => rfl
  | some b =>
    cases b
    · exact absurd hpatch hpn
    · rfl

/-- C10 witness: checking then unchecking the box leaves a patch whose
`newOnly` is not `false`, and saving it over persisted `newOnly = true`
still persists `newOnly = true`. -/
theorem claim_C10_witness :
    (([true, false].foldl newOnlyChangeHandler initialNewPrefs).newOnly ≠ some false)
    ∧ (∃ m, saveAction getConf (.valid (.jobj { newOnly := some true }))
          ([true, false].foldl newOnlyChangeHandler initialNewPrefs) = .ok m
        ∧ m.newOnly = some true) :=
  ⟨(claim_C10_newOnly_sticky [true, false] getConf { newOnly := some true }).1,
   (claim_C10_newOnly_sticky [true, false] getConf { newOnly := some true }).2.1 rfl⟩

end Rcp
